import Mathlib

/-!
Shallow embedding of the KunQuant-rs binding layer (src/error.rs, src/buffer.rs,
src/batch.rs, src/library.rs, src/stream.rs).

The native engine is opaque: each native entry point that returns a value is
modelled as an oracle function passed in explicitly, and every native call the
Rust layer issues is recorded in a trace (`List NativeCall`).  Rust `usize` is
modelled as `Nat` together with the constant `USIZE_MAX`; raw pointers are
modelled as `Nat` addresses with `0` standing for null; `f32` payloads are
modelled by their bit patterns (`Nat`), since no property in view inspects
floating-point arithmetic.  `HashMap` is modelled as an association list with
overwrite-on-insert semantics.  Fallible Rust functions returning
`Result<T, KunQuantError>` become Lean functions returning
`Except KunQuantError T`, paired with the updated state and the native-call
trace.
-/

namespace KunQuant

/-- Values of `f32` carried across the boundary, modelled by their bit
pattern; no property in view inspects float arithmetic. -/
abbrev F32 := Nat

/-- Rust `usize::MAX` on a 64-bit target: the native "not found" sentinel of
`kunQueryBufferHandle`. -/
def USIZE_MAX : Nat := 2 ^ 64 - 1

/-- Predicate under which `CString::new` fails: the Rust string has an
interior NUL byte; for the strings in view (module and buffer names) this is
the presence of a `\x00` character. -/
def hasNulByte (s : String) : Bool := s.data.any fun c => c.toNat = 0

/-- Error taxonomy `KunQuantError` from src/error.rs.  `StringConversion` is
the `#[from] std::ffi::NulError` variant, modelled as carrying the offending
string. -/
inductive KunQuantError where
  | ExecutorCreationFailed
  | LibraryLoadFailed (path : String)
  | ModuleNotFound (name : String)
  | BufferNameMapCreationFailed
  | InvalidBufferName (name : String)
  | InvalidStockCount (num_stocks : Nat)
  | BufferSizeMismatch (name : String) (expected actual : Nat)
  | StreamCreationFailed
  | BufferHandleNotFound (name : String)
  | NullPointer
  | StringConversion (name : String)
  | Utf8Conversion
deriving DecidableEq, Repr

/-- One call into the native entry-point table (src/ffi.rs), as issued by the
binding layer.  Handle-typed arguments are the `Nat` addresses of the opaque
native handles. -/
inductive NativeCall where
  | kunSetBufferNameMap (map : Nat) (name : String) (buffer : Nat)
  | kunEraseBufferNameMap (map : Nat) (name : String)
  | kunGetModuleFromLibrary (library : Nat) (name : String)
  | kunRunGraph (executor module buffers num_stocks total_time cur_time length : Nat)
  | kunCreateStream (executor module num_stocks : Nat)
  | kunQueryBufferHandle (stream : Nat) (name : String)
  | kunStreamGetCurrentBuffer (stream bufHandle : Nat)
  | kunStreamPushData (stream bufHandle : Nat) (values : List F32)
  | kunStreamRun (stream : Nat)
deriving DecidableEq, Repr

/-- Lookup (`HashMap::get`) on the association-list model. -/
def mapLookup {β : Type} (m : List (String × β)) (k : String) : Option β :=
  match m with
  | [] => none
  | (k', v) :: rest => if k' = k then some v else mapLookup rest k

/-- Insertion (`HashMap::insert`) on the association-list model: overwrite
if present, append otherwise. -/
def mapInsert {β : Type} (m : List (String × β)) (k : String) (v : β) :
    List (String × β) :=
  match m with
  | [] => [(k, v)]
  | (k', v') :: rest =>
      if k' = k then (k, v) :: rest else (k', v') :: mapInsert rest k v

/-- Removal (`HashMap::remove`) on the association-list model. -/
def mapRemove {β : Type} (m : List (String × β)) (k : String) :
    List (String × β) :=
  match m with
  | [] => []
  | (k', v') :: rest =>
      if k' = k then rest else (k', v') :: mapRemove rest k

/-- src/executor.rs: `Executor` owns one native worker-pool handle. -/
structure Executor where
  handle : Nat
deriving DecidableEq, Repr

/-- src/library.rs: `Library` owns one native loaded-module-set handle. -/
structure Library where
  handle : Nat
deriving DecidableEq, Repr

/-- src/library.rs: `Module` is a non-owning view with a native graph handle
(the `_library` back-reference is a lifetime artifact with no data). -/
structure Module where
  handle : Nat
deriving DecidableEq, Repr

/-- src/library.rs `Library::get_module`: build the C name (fails on interior
NUL), query `kunGetModuleFromLibrary`, translate a null handle into
`ModuleNotFound {name}`.  `getModuleNative` is the native lookup oracle
(`0` = null).  The receiver is `&self`; the returned `Library` component makes
the absence of state change explicit. -/
def Library.get_module (getModuleNative : String → Nat) (lib : Library)
    (name : String) :
    Except KunQuantError Module × Library × List NativeCall :=
  if hasNulByte name then
    (Except.error (KunQuantError.StringConversion name), lib, [])
  else
    let module_handle := getModuleNative name
    if module_handle = 0 then
      (Except.error (KunQuantError.ModuleNotFound name), lib,
        [NativeCall.kunGetModuleFromLibrary lib.handle name])
    else
      (Except.ok ⟨module_handle⟩, lib,
        [NativeCall.kunGetModuleFromLibrary lib.handle name])

/-- src/buffer.rs: `BufferNameMap` owns the native table handle plus, per
registered name, the owned `CString` copy of the name (modelled by the
NUL-free name itself). -/
structure BufferNameMap where
  handle : Nat
  buffer_names : List (String × String)
deriving DecidableEq, Repr

/-- src/buffer.rs `BufferNameMap::set_buffer`: `CString::new(name)?` (fails on
interior NUL before any native call), then `kunSetBufferNameMap`, then record
the owned name copy. -/
def BufferNameMap.set_buffer (m : BufferNameMap) (name : String)
    (buffer : Nat) :
    Except KunQuantError Unit × BufferNameMap × List NativeCall :=
  if hasNulByte name then
    (Except.error (KunQuantError.StringConversion name), m, [])
  else
    (Except.ok (), ⟨m.handle, mapInsert m.buffer_names name name⟩,
      [NativeCall.kunSetBufferNameMap m.handle name buffer])

/-- src/buffer.rs `BufferNameMap::set_buffer_slice`: delegates to
`set_buffer` with the slice's base pointer. -/
def BufferNameMap.set_buffer_slice (m : BufferNameMap) (name : String)
    (bufferPtr : Nat) :
    Except KunQuantError Unit × BufferNameMap × List NativeCall :=
  m.set_buffer name bufferPtr

/-- src/buffer.rs `BufferNameMap::erase_buffer`: native erase plus removal of
the stored name copy when present; a no-op success otherwise. -/
def BufferNameMap.erase_buffer (m : BufferNameMap) (name : String) :
    Except KunQuantError Unit × BufferNameMap × List NativeCall :=
  match mapLookup m.buffer_names name with
  | some _ =>
      (Except.ok (), ⟨m.handle, mapRemove m.buffer_names name⟩,
        [NativeCall.kunEraseBufferNameMap m.handle name])
  | none => (Except.ok (), m, [])

/-- src/batch.rs: `BatchParams` value type. -/
structure BatchParams where
  num_stocks : Nat
  total_time : Nat
  cur_time : Nat
  length : Nat
deriving DecidableEq, Repr

/-- src/batch.rs `BatchParams::new`: returns `Ok` unconditionally — no local
validation of the window or the SIMD multiple-of-8 requirement. -/
def BatchParams.new (num_stocks total_time cur_time length : Nat) :
    Except KunQuantError BatchParams :=
  Except.ok ⟨num_stocks, total_time, cur_time, length⟩

/-- src/batch.rs `BatchParams::full_range`: `new(num_stocks, total_time, 0,
total_time)`. -/
def BatchParams.full_range (num_stocks total_time : Nat) :
    Except KunQuantError BatchParams :=
  BatchParams.new num_stocks total_time 0 total_time

/-- src/batch.rs `run_graph`: one unconditional `kunRunGraph` call, then
`Ok(())` — the native call has no status return. -/
def run_graph (executor : Executor) (module : Module)
    (buffers : BufferNameMap) (params : BatchParams) :
    Except KunQuantError Unit × List NativeCall :=
  (Except.ok (),
    [NativeCall.kunRunGraph executor.handle module.handle buffers.handle
      params.num_stocks params.total_time params.cur_time params.length])

/-- src/stream.rs: `StreamContext` owns the native session handle, the fixed
stock count, and the name → buffer-handle cache. -/
structure StreamContext where
  handle : Nat
  num_stocks : Nat
  buffer_handles : List (String × Nat)
deriving DecidableEq, Repr

namespace StreamContext

/-- src/stream.rs `StreamContext::new`: `kunCreateStream`, with a null result
translated into `StreamCreationFailed`.  `createStream` is the native
constructor oracle (`0` = null). -/
def new (createStream : Nat → Nat → Nat → Nat) (executor : Executor)
    (module : Module) (num_stocks : Nat) :
    Except KunQuantError StreamContext × List NativeCall :=
  let handle := createStream executor.handle module.handle num_stocks
  if handle = 0 then
    (Except.error KunQuantError.StreamCreationFailed,
      [NativeCall.kunCreateStream executor.handle module.handle num_stocks])
  else
    (Except.ok ⟨handle, num_stocks, []⟩,
      [NativeCall.kunCreateStream executor.handle module.handle num_stocks])

/-- src/stream.rs `StreamContext::get_buffer_handle`: cache hit returns
immediately; otherwise `CString::new(name)?`, then `kunQueryBufferHandle`,
translating the `usize::MAX` sentinel into `BufferHandleNotFound {name}` and
caching a successful resolution.  `query` is the native lookup oracle. -/
def get_buffer_handle (query : String → Nat) (ctx : StreamContext)
    (name : String) :
    Except KunQuantError Nat × StreamContext × List NativeCall :=
  match mapLookup ctx.buffer_handles name with
  | some handle => (Except.ok handle, ctx, [])
  | none =>
      if hasNulByte name then
        (Except.error (KunQuantError.StringConversion name), ctx, [])
      else
        let handle := query name
        if handle = USIZE_MAX then
          (Except.error (KunQuantError.BufferHandleNotFound name), ctx,
            [NativeCall.kunQueryBufferHandle ctx.handle name])
        else
          (Except.ok handle,
            ⟨ctx.handle, ctx.num_stocks,
              mapInsert ctx.buffer_handles name handle⟩,
            [NativeCall.kunQueryBufferHandle ctx.handle name])

/-- src/stream.rs `StreamContext::get_current_buffer`: resolve the handle
(through the cache), call `kunStreamGetCurrentBuffer`, translate a null
pointer into `NullPointer`, else return the `num_stocks`-long view (modelled
as base pointer and length).  `bufPtr` is the native pointer oracle
(`0` = null). -/
def get_current_buffer (query : String → Nat) (bufPtr : Nat → Nat)
    (ctx : StreamContext) (name : String) :
    Except KunQuantError (Nat × Nat) × StreamContext × List NativeCall :=
  match get_buffer_handle query ctx name with
  | (Except.ok handle, ctx', calls) =>
      let ptr := bufPtr handle
      if ptr = 0 then
        (Except.error KunQuantError.NullPointer, ctx',
          calls ++ [NativeCall.kunStreamGetCurrentBuffer ctx'.handle handle])
      else
        (Except.ok (ptr, ctx'.num_stocks), ctx',
          calls ++ [NativeCall.kunStreamGetCurrentBuffer ctx'.handle handle])
  | (Except.error e, ctx', calls) => (Except.error e, ctx', calls)

/-- src/stream.rs `StreamContext::push_data`: the length check against
`num_stocks` comes first (failing with `BufferSizeMismatch` before anything
else); then the handle is resolved and `kunStreamPushData` issued. -/
def push_data (query : String → Nat) (ctx : StreamContext) (name : String)
    (data : List F32) :
    Except KunQuantError Unit × StreamContext × List NativeCall :=
  if data.length ≠ ctx.num_stocks then
    (Except.error
        (KunQuantError.BufferSizeMismatch name ctx.num_stocks data.length),
      ctx, [])
  else
    match get_buffer_handle query ctx name with
    | (Except.ok handle, ctx', calls) =>
        (Except.ok (), ctx',
          calls ++ [NativeCall.kunStreamPushData ctx'.handle handle data])
    | (Except.error e, ctx', calls) => (Except.error e, ctx', calls)

/-- src/stream.rs `StreamContext::run`: defensive null check on the session
handle, then the status-less `kunStreamRun` call. -/
def run (ctx : StreamContext) :
    Except KunQuantError Unit × List NativeCall :=
  if ctx.handle = 0 then
    (Except.error KunQuantError.NullPointer, [])
  else
    (Except.ok (), [NativeCall.kunStreamRun ctx.handle])

end StreamContext

/-- States a `StreamContext` can reach from a given state through any
sequence of the mutating operations of its lifetime (`get_buffer_handle`,
`get_current_buffer`, `push_data`).  Each step's native query oracle is
arbitrary except that it returns a `usize` (bounded by `USIZE_MAX`), as the
real `kunQueryBufferHandle` does. -/
inductive Reaches : StreamContext → StreamContext → Prop where
  | refl (ctx : StreamContext) : Reaches ctx ctx
  | getHandle (query : String → Nat) (hq : ∀ s, query s ≤ USIZE_MAX)
      (name : String) (a b : StreamContext) (h : Reaches a b) :
      Reaches a (StreamContext.get_buffer_handle query b name).2.1
  | getCurrent (query : String → Nat) (hq : ∀ s, query s ≤ USIZE_MAX)
      (bufPtr : Nat → Nat) (name : String)
      (a b : StreamContext) (h : Reaches a b) :
      Reaches a (StreamContext.get_current_buffer query bufPtr b name).2.1
  | push (query : String → Nat) (hq : ∀ s, query s ≤ USIZE_MAX)
      (name : String) (data : List F32)
      (a b : StreamContext) (h : Reaches a b) :
      Reaches a (StreamContext.push_data query b name data).2.1

/-! Association-list lemmas. -/

theorem mapLookup_mapInsert_self {β : Type} (m : List (String × β))
    (k : String) (v : β) : mapLookup (mapInsert m k v) k = some v := by
  induction m with
  | nil => simp [mapInsert, mapLookup]
  | cons p rest ih =>
      obtain ⟨k', v'⟩ := p
      by_cases h : k' = k
      · simp [mapInsert, mapLookup, h]
      · simp [mapInsert, mapLookup, h, ih]

theorem mapLookup_mapInsert_ne {β : Type} (m : List (String × β))
    (k k' : String) (v : β) (h : k' ≠ k) :
    mapLookup (mapInsert m k v) k' = mapLookup m k' := by
  have hk : k ≠ k' := Ne.symm h
  induction m with
  | nil => simp [mapInsert, mapLookup, hk]
  | cons p rest ih =>
      obtain ⟨k₀, v₀⟩ := p
      by_cases h0 : k₀ = k
      · subst h0
        simp [mapInsert, mapLookup, hk]
      · simp [mapInsert, mapLookup, h0, ih]

/-! Equation lemmas for `StreamContext.get_buffer_handle`, one per control
path of the Rust function. -/

theorem get_buffer_handle_hit (query : String → Nat) (ctx : StreamContext)
    (name : String) (h : Nat)
    (hl : mapLookup ctx.buffer_handles name = some h) :
    StreamContext.get_buffer_handle query ctx name =
      (Except.ok h, ctx, []) := by
  unfold StreamContext.get_buffer_handle
  rw [hl]

theorem get_buffer_handle_nul (query : String → Nat) (ctx : StreamContext)
    (name : String)
    (hl : mapLookup ctx.buffer_handles name = none)
    (hn : hasNulByte name = true) :
    StreamContext.get_buffer_handle query ctx name =
      (Except.error (KunQuantError.StringConversion name), ctx, []) := by
  unfold StreamContext.get_buffer_handle
  rw [hl]
  simp [hn]

theorem get_buffer_handle_sentinel (query : String → Nat)
    (ctx : StreamContext) (name : String)
    (hl : mapLookup ctx.buffer_handles name = none)
    (hn : hasNulByte name = false)
    (hs : query name = USIZE_MAX) :
    StreamContext.get_buffer_handle query ctx name =
      (Except.error (KunQuantError.BufferHandleNotFound name), ctx,
        [NativeCall.kunQueryBufferHandle ctx.handle name]) := by
  unfold StreamContext.get_buffer_handle
  rw [hl]
  simp [hn, hs]

theorem get_buffer_handle_miss (query : String → Nat) (ctx : StreamContext)
    (name : String)
    (hl : mapLookup ctx.buffer_handles name = none)
    (hn : hasNulByte name = false)
    (hs : query name ≠ USIZE_MAX) :
    StreamContext.get_buffer_handle query ctx name =
      (Except.ok (query name),
        ⟨ctx.handle, ctx.num_stocks,
          mapInsert ctx.buffer_handles name (query name)⟩,
        [NativeCall.kunQueryBufferHandle ctx.handle name]) := by
  unfold StreamContext.get_buffer_handle
  rw [hl]
  simp [hn, hs]

/-! State-shape lemmas for the mutating stream operations. -/

theorem get_buffer_handle_state_shape (query : String → Nat)
    (ctx : StreamContext) (name : String) :
    (StreamContext.get_buffer_handle query ctx name).2.1.handle = ctx.handle ∧
    (StreamContext.get_buffer_handle query ctx name).2.1.num_stocks =
      ctx.num_stocks := by
  cases hl : mapLookup ctx.buffer_handles name with
  | some h => rw [get_buffer_handle_hit query ctx name h hl]; exact ⟨rfl, rfl⟩
  | none =>
      by_cases hn : hasNulByte name = true
      · rw [get_buffer_handle_nul query ctx name hl hn]; exact ⟨rfl, rfl⟩
      · have hn' : hasNulByte name = false := by simpa using hn
        by_cases hs : query name = USIZE_MAX
        · rw [get_buffer_handle_sentinel query ctx name hl hn' hs]
          exact ⟨rfl, rfl⟩
        · rw [get_buffer_handle_miss query ctx name hl hn' hs]
          exact ⟨rfl, rfl⟩

theorem get_current_buffer_state (query : String → Nat) (bufPtr : Nat → Nat)
    (ctx : StreamContext) (name : String) :
    (StreamContext.get_current_buffer query bufPtr ctx name).2.1 =
      (StreamContext.get_buffer_handle query ctx name).2.1 := by
  unfold StreamContext.get_current_buffer
  rcases hg : StreamContext.get_buffer_handle query ctx name with ⟨r, ctx', tr⟩
  cases r with
  | ok h => by_cases hp : bufPtr h = 0 <;> simp [hp]
  | error e => rfl

theorem push_data_state (query : String → Nat) (ctx : StreamContext)
    (name : String) (data : List F32) :
    (StreamContext.push_data query ctx name data).2.1 = ctx ∨
    (StreamContext.push_data query ctx name data).2.1 =
      (StreamContext.get_buffer_handle query ctx name).2.1 := by
  unfold StreamContext.push_data
  by_cases hlen : data.length ≠ ctx.num_stocks
  · left; simp [hlen]
  · right
    simp only [hlen, if_false]
    rcases hg : StreamContext.get_buffer_handle query ctx name with ⟨r, ctx', tr⟩
    cases r with
    | ok h => rfl
    | error e => rfl

/-- Any cached resolution survives a later `get_buffer_handle` call: entries
are only ever inserted on a cache miss, never overwritten or removed. -/
theorem get_buffer_handle_preserves_cache (query : String → Nat)
    (ctx : StreamContext) (name name' : String) (v : Nat)
    (hl : mapLookup ctx.buffer_handles name = some v) :
    mapLookup
      (StreamContext.get_buffer_handle query ctx name').2.1.buffer_handles
      name = some v := by
  cases hl' : mapLookup ctx.buffer_handles name' with
  | some h => rw [get_buffer_handle_hit query ctx name' h hl']; exact hl
  | none =>
      by_cases hn : hasNulByte name' = true
      · rw [get_buffer_handle_nul query ctx name' hl' hn]; exact hl
      · have hn' : hasNulByte name' = false := by simpa using hn
        by_cases hs : query name' = USIZE_MAX
        · rw [get_buffer_handle_sentinel query ctx name' hl' hn' hs]; exact hl
        · rw [get_buffer_handle_miss query ctx name' hl' hn' hs]
          have hne : name ≠ name' := by
            intro he
            rw [he, hl'] at hl
            cases hl
          show mapLookup (mapInsert ctx.buffer_handles name' (query name'))
              name = some v
          rw [mapLookup_mapInsert_ne ctx.buffer_handles name' name
            (query name') hne]
          exact hl

/-- Invariant of the handle cache: every key went through `CString::new`
(so is NUL-free) and every value came back from a non-sentinel native query
(so is a `usize` strictly below `usize::MAX`). -/
def CacheGood (ctx : StreamContext) : Prop :=
  ∀ k v, mapLookup ctx.buffer_handles k = some v →
    hasNulByte k = false ∧ v < USIZE_MAX

theorem get_buffer_handle_preserves_cacheGood (query : String → Nat)
    (hq : ∀ s, query s ≤ USIZE_MAX) (ctx : StreamContext) (name : String)
    (hg : CacheGood ctx) :
    CacheGood (StreamContext.get_buffer_handle query ctx name).2.1 := by
  cases hl : mapLookup ctx.buffer_handles name with
  | some h => rw [get_buffer_handle_hit query ctx name h hl]; exact hg
  | none =>
      by_cases hn : hasNulByte name = true
      · rw [get_buffer_handle_nul query ctx name hl hn]; exact hg
      · have hn' : hasNulByte name = false := by simpa using hn
        by_cases hs : query name = USIZE_MAX
        · rw [get_buffer_handle_sentinel query ctx name hl hn' hs]; exact hg
        · rw [get_buffer_handle_miss query ctx name hl hn' hs]
          intro k v hk
          by_cases hkn : k = name
          · subst hkn
            have hk' : mapLookup (mapInsert ctx.buffer_handles k (query k))
                k = some (query k) := mapLookup_mapInsert_self _ _ _
            have hv : v = query k := by
              have := hk
              rw [show (⟨ctx.handle, ctx.num_stocks,
                  mapInsert ctx.buffer_handles k (query k)⟩ :
                  StreamContext).buffer_handles =
                  mapInsert ctx.buffer_handles k (query k) from rfl] at this
              rw [hk'] at this
              exact (Option.some.inj this).symm
            refine ⟨hn', ?_⟩
            rw [hv]
            exact lt_of_le_of_ne (hq k) hs
          · refine hg k v ?_
            have := hk
            rw [show (⟨ctx.handle, ctx.num_stocks,
                mapInsert ctx.buffer_handles name (query name)⟩ :
                StreamContext).buffer_handles =
                mapInsert ctx.buffer_handles name (query name) from rfl,
              mapLookup_mapInsert_ne ctx.buffer_handles name k
                (query name) hkn] at this
            exact this

/-! Lifetime invariants, by induction over `Reaches`. -/

theorem Reaches.state_shape {a b : StreamContext} (h : Reaches a b) :
    b.handle = a.handle ∧ b.num_stocks = a.num_stocks := by
  induction h with
  | refl ctx => exact ⟨rfl, rfl⟩
  | getHandle query hq name a' b' h ih =>
      have hs := get_buffer_handle_state_shape query b' name
      exact ⟨hs.1.trans ih.1, hs.2.trans ih.2⟩
  | getCurrent query hq bufPtr name a' b' h ih =>
      rw [get_current_buffer_state]
      have hs := get_buffer_handle_state_shape query b' name
      exact ⟨hs.1.trans ih.1, hs.2.trans ih.2⟩
  | push query hq name data a' b' h ih =>
      rcases push_data_state query b' name data with he | he
      · rw [he]; exact ih
      · rw [he]
        have hs := get_buffer_handle_state_shape query b' name
        exact ⟨hs.1.trans ih.1, hs.2.trans ih.2⟩

theorem Reaches.cache_mono {a b : StreamContext} (h : Reaches a b)
    (name : String) (v : Nat)
    (hl : mapLookup a.buffer_handles name = some v) :
    mapLookup b.buffer_handles name = some v := by
  induction h with
  | refl ctx => exact hl
  | getHandle query hq name' a' b' h ih =>
      exact get_buffer_handle_preserves_cache query b' name name' v (ih hl)
  | getCurrent query hq bufPtr name' a' b' h ih =>
      rw [get_current_buffer_state]
      exact get_buffer_handle_preserves_cache query b' name name' v (ih hl)
  | push query hq name' data a' b' h ih =>
      rcases push_data_state query b' name' data with he | he
      · rw [he]; exact ih hl
      · rw [he]
        exact get_buffer_handle_preserves_cache query b' name name' v (ih hl)

theorem Reaches.cacheGood {a b : StreamContext} (h : Reaches a b)
    (hg : CacheGood a) : CacheGood b := by
  induction h with
  | refl ctx => exact hg
  | getHandle query hq name a' b' h ih =>
      exact get_buffer_handle_preserves_cacheGood query hq b' name (ih hg)
  | getCurrent query hq bufPtr name a' b' h ih =>
      rw [get_current_buffer_state]
      exact get_buffer_handle_preserves_cacheGood query hq b' name (ih hg)
  | push query hq name data a' b' h ih =>
      rcases push_data_state query b' name data with he | he
      · rw [he]; exact ih hg
      · rw [he]
        exact get_buffer_handle_preserves_cacheGood query hq b' name (ih hg)

/-- Successful construction yields a non-null session handle, the requested
stock count, and an empty handle cache. -/
theorem new_ok_state (createStream : Nat → Nat → Nat → Nat) (e : Executor)
    (m : Module) (num : Nat) (ctx : StreamContext)
    (h : (StreamContext.new createStream e m num).1 = Except.ok ctx) :
    ctx.handle ≠ 0 ∧ ctx.num_stocks = num ∧ ctx.buffer_handles = [] := by
  unfold StreamContext.new at h
  by_cases hz : createStream e.handle m.handle num = 0
  · simp [hz] at h
  · simp only [hz, if_false] at h
    have h' := Except.ok.inj h
    rw [← h']
    exact ⟨hz, rfl, rfl⟩

/-- When the length check passes and handle resolution fails, `push_data`
propagates that failure unchanged (the Rust `?` operator). -/
theorem push_data_error (query : String → Nat) (ctx : StreamContext)
    (name : String) (data : List F32) (err : KunQuantError)
    (ctx' : StreamContext) (tr : List NativeCall)
    (hlen : ¬data.length ≠ ctx.num_stocks)
    (hg : StreamContext.get_buffer_handle query ctx name =
      (Except.error err, ctx', tr)) :
    StreamContext.push_data query ctx name data =
      (Except.error err, ctx', tr) := by
  unfold StreamContext.push_data
  rw [if_neg hlen, hg]

/-- A successful `get_buffer_handle` leaves the resolved value in the
resulting cache (both on a hit and on a fresh insertion). -/
theorem get_buffer_handle_ok_cached (query : String → Nat)
    (ctx : StreamContext) (name : String) (h : Nat) (ctx1 : StreamContext)
    (tr : List NativeCall)
    (hfirst : StreamContext.get_buffer_handle query ctx name =
      (Except.ok h, ctx1, tr)) :
    mapLookup ctx1.buffer_handles name = some h := by
  cases hl : mapLookup ctx.buffer_handles name with
  | some h0 =>
      rw [get_buffer_handle_hit query ctx name h0 hl] at hfirst
      simp only [Prod.mk.injEq, Except.ok.injEq] at hfirst
      obtain ⟨hh, hc, -⟩ := hfirst
      rw [← hc, hl, hh]
  | none =>
      by_cases hn : hasNulByte name = true
      · rw [get_buffer_handle_nul query ctx name hl hn] at hfirst
        simp at hfirst
      · have hn' : hasNulByte name = false := by simpa using hn
        by_cases hs : query name = USIZE_MAX
        · rw [get_buffer_handle_sentinel query ctx name hl hn' hs] at hfirst
          simp at hfirst
        · rw [get_buffer_handle_miss query ctx name hl hn' hs] at hfirst
          simp only [Prod.mk.injEq, Except.ok.injEq] at hfirst
          obtain ⟨hh, hc, -⟩ := hfirst
          rw [← hc]
          show mapLookup (mapInsert ctx.buffer_handles name (query name))
              name = some h
          rw [mapLookup_mapInsert_self, hh]

/-! Claims. -/

/-- C2: for every stream context with stock count `n` and every call
`push_data(name, data)` with `data.len() ≠ n`, the call fails with
`BufferSizeMismatch` carrying that name, `expected = n` and
`actual = data.len()`, leaves the context unchanged, and issues no native
call at all; and the native push is reached only when `data.len() = n`. -/
theorem C2_push_size_mismatch (query : String → Nat) (ctx : StreamContext)
    (name : String) (data : List F32) :
    (data.length ≠ ctx.num_stocks →
      StreamContext.push_data query ctx name data =
        (Except.error
            (KunQuantError.BufferSizeMismatch name ctx.num_stocks
              data.length),
          ctx, [])) ∧
    (∀ s bh d,
      NativeCall.kunStreamPushData s bh d ∈
        (StreamContext.push_data query ctx name data).2.2 →
      data.length = ctx.num_stocks) := by
  constructor
  · intro h
    unfold StreamContext.push_data
    rw [if_pos h]
  · intro s bh d hmem
    by_cases h : data.length = ctx.num_stocks
    · exact h
    · exfalso
      have heq : (StreamContext.push_data query ctx name data).2.2 = [] := by
        unfold StreamContext.push_data
        rw [if_pos h]
      rw [heq] at hmem
      exact absurd hmem (List.not_mem_nil _)

theorem C2_witness :
    ((3 : Nat) ≠ 8) ∧
    StreamContext.push_data (fun _ => 0) ⟨1, 8, []⟩ "close" [10, 11, 12] =
      (Except.error (KunQuantError.BufferSizeMismatch "close" 8 3),
        ⟨1, 8, []⟩, []) :=
  ⟨by decide,
   (C2_push_size_mismatch (fun _ => 0) ⟨1, 8, []⟩ "close" [10, 11, 12]).1
     (by decide)⟩

/-- C5: `BatchParams::new(num_stocks, total_time, cur_time, length)`
performs no local validation and returns `Ok` with exactly the given field
values for every combination of arguments — in particular also when
`cur_time + length > total_time` and when `num_stocks` is not a multiple of
8. -/
theorem C5_new_no_validation
    (num_stocks total_time cur_time length : Nat) :
    BatchParams.new num_stocks total_time cur_time length =
      Except.ok ⟨num_stocks, total_time, cur_time, length⟩ := rfl

/-- C6: `run_graph(executor, module, buffers, params)` returns `Ok(())` for
every input and issues exactly one native call (`kunRunGraph`), so no
native-side computation failure is distinguishable from success through its
result. -/
theorem C6_run_graph_always_ok (executor : Executor) (module : Module)
    (buffers : BufferNameMap) (params : BatchParams) :
    run_graph executor module buffers params =
      (Except.ok (),
        [NativeCall.kunRunGraph executor.handle module.handle buffers.handle
          params.num_stocks params.total_time params.cur_time
          params.length]) := rfl

/-- C8: for all `n` and `t`, `BatchParams::full_range(n, t)` is equivalent
to `BatchParams::new(n, t, 0, t)`: both succeed and produce identical
values in all four fields. -/
theorem C8_full_range_equiv (n t : Nat) :
    BatchParams.full_range n t = BatchParams.new n t 0 t ∧
    BatchParams.full_range n t = Except.ok ⟨n, t, 0, t⟩ :=
  ⟨rfl, rfl⟩

/-- C9: for every loaded library and NUL-free module name on which the
native lookup returns null, `get_module` fails with `ModuleNotFound`
carrying exactly that name, and the library value is unchanged, so a
subsequent `get_module` on the same library behaves as if the failed call
never happened. -/
theorem C9_module_not_found (getModuleNative : String → Nat) (lib : Library)
    (name : String) (hname : hasNulByte name = false)
    (hnull : getModuleNative name = 0) :
    Library.get_module getModuleNative lib name =
      (Except.error (KunQuantError.ModuleNotFound name), lib,
        [NativeCall.kunGetModuleFromLibrary lib.handle name]) ∧
    ∀ g2 name2,
      Library.get_module g2
        (Library.get_module getModuleNative lib name).2.1 name2 =
      Library.get_module g2 lib name2 := by
  have h1 : Library.get_module getModuleNative lib name =
      (Except.error (KunQuantError.ModuleNotFound name), lib,
        [NativeCall.kunGetModuleFromLibrary lib.handle name]) := by
    unfold Library.get_module
    simp [hname, hnull]
  refine ⟨h1, ?_⟩
  intro g2 name2
  rw [h1]

theorem C9_witness :
    hasNulByte "alpha" = false ∧
    Library.get_module (fun _ => 0) ⟨7⟩ "alpha" =
      (Except.error (KunQuantError.ModuleNotFound "alpha"), ⟨7⟩,
        [NativeCall.kunGetModuleFromLibrary 7 "alpha"]) :=
  ⟨by decide,
   (C9_module_not_found (fun _ => 0) ⟨7⟩ "alpha" (by decide) rfl).1⟩

/-- C4: after a first successful `get_buffer_handle(name)` returning `h`,
every subsequent `get_buffer_handle(name)` in the context's lifetime —
whatever the native oracle would answer meanwhile or at that point —
returns exactly `h`, leaves the context unchanged, and issues no native
query. -/
theorem C4_cached_resolution (query query2 : String → Nat)
    (ctx ctx1 ctx2 : StreamContext) (name : String) (h : Nat)
    (tr : List NativeCall)
    (hfirst : StreamContext.get_buffer_handle query ctx name =
      (Except.ok h, ctx1, tr))
    (hreach : Reaches ctx1 ctx2) :
    StreamContext.get_buffer_handle query2 ctx2 name =
      (Except.ok h, ctx2, []) := by
  have h1 := get_buffer_handle_ok_cached query ctx name h ctx1 tr hfirst
  have h2 := hreach.cache_mono name h h1
  exact get_buffer_handle_hit query2 ctx2 name h h2

theorem C4_witness :
    StreamContext.get_buffer_handle (fun _ => 7) ⟨1, 8, [("close", 5)]⟩
        "close" =
      (Except.ok 5, ⟨1, 8, [("close", 5)]⟩, []) :=
  C4_cached_resolution (fun _ => 5) (fun _ => 7) ⟨1, 8, []⟩
    ⟨1, 8, [("close", 5)]⟩ ⟨1, 8, [("close", 5)]⟩ "close" 5
    [NativeCall.kunQueryBufferHandle 1 "close"]
    (get_buffer_handle_miss (fun _ => 5) ⟨1, 8, []⟩ "close" rfl (by decide)
      (by decide))
    (Reaches.refl _)

/-- C7: every successfully constructed stream context keeps a non-null
native handle in every reachable state of its lifetime, so the defensive
`NullPointer` branch of `run` is unreachable: `run()` returns `Ok(())` (and
issues the single `kunStreamRun` call). -/
theorem C7_run_never_null (createStream : Nat → Nat → Nat → Nat)
    (e : Executor) (m : Module) (num : Nat) (c0 ctx : StreamContext)
    (hnew : (StreamContext.new createStream e m num).1 = Except.ok c0)
    (hreach : Reaches c0 ctx) :
    (createStream e.handle m.handle num = 0 →
      (StreamContext.new createStream e m num).1 =
        Except.error KunQuantError.StreamCreationFailed) ∧
    ctx.handle ≠ 0 ∧
    StreamContext.run ctx =
      (Except.ok (), [NativeCall.kunStreamRun ctx.handle]) := by
  obtain ⟨hh, -, -⟩ := new_ok_state createStream e m num c0 hnew
  have hh' : ctx.handle ≠ 0 := by
    rw [hreach.state_shape.1]
    exact hh
  refine ⟨?_, hh', ?_⟩
  · intro hz
    simp [StreamContext.new, hz]
  · unfold StreamContext.run
    rw [if_neg hh']

theorem C7_witness :
    StreamContext.run ⟨42, 8, []⟩ =
      (Except.ok (), [NativeCall.kunStreamRun 42]) :=
  (C7_run_never_null (fun _ _ _ => 42) ⟨1⟩ ⟨2⟩ 8 ⟨42, 8, []⟩ ⟨42, 8, []⟩ rfl
    (Reaches.refl _)).2.2

/-- C3: whenever the native query returns the `usize::MAX` sentinel for an
uncached NUL-free name, `get_buffer_handle` returns `BufferHandleNotFound`
carrying that name and leaves the cache unchanged; a successful result is
never the sentinel; and every value ever present in the cache of a context
reachable from construction is strictly less than `usize::MAX`. -/
theorem C3_sentinel_translated (query : String → Nat)
    (hq : ∀ s, query s ≤ USIZE_MAX)
    (createStream : Nat → Nat → Nat → Nat) (e : Executor) (m : Module)
    (num : Nat) (c0 ctx : StreamContext) (name : String)
    (hnew : (StreamContext.new createStream e m num).1 = Except.ok c0)
    (hreach : Reaches c0 ctx) :
    (mapLookup ctx.buffer_handles name = none → hasNulByte name = false →
      query name = USIZE_MAX →
      StreamContext.get_buffer_handle query ctx name =
        (Except.error (KunQuantError.BufferHandleNotFound name), ctx,
          [NativeCall.kunQueryBufferHandle ctx.handle name])) ∧
    (∀ k v, mapLookup ctx.buffer_handles k = some v → v < USIZE_MAX) ∧
    (∀ h ctx' tr,
      StreamContext.get_buffer_handle query ctx name =
        (Except.ok h, ctx', tr) →
      h < USIZE_MAX) := by
  have hcg0 : CacheGood c0 := by
    obtain ⟨-, -, hemp⟩ := new_ok_state createStream e m num c0 hnew
    intro k v hk
    rw [hemp] at hk
    simp [mapLookup] at hk
  have hcg := hreach.cacheGood hcg0
  refine ⟨?_, ?_, ?_⟩
  · intro hl hn hs
    exact get_buffer_handle_sentinel query ctx name hl hn hs
  · intro k v hk
    exact (hcg k v hk).2
  · intro h ctx' tr hok
    have hstep : Reaches ctx ctx' := by
      have hr := Reaches.getHandle query hq name ctx ctx (Reaches.refl ctx)
      rw [hok] at hr
      exact hr
    have hcg' := hstep.cacheGood hcg
    have hcached := get_buffer_handle_ok_cached query ctx name h ctx' tr hok
    exact (hcg' name h hcached).2

theorem C3_witness :
    StreamContext.get_buffer_handle (fun _ => USIZE_MAX) ⟨1, 8, []⟩
        "close" =
      (Except.error (KunQuantError.BufferHandleNotFound "close"),
        ⟨1, 8, []⟩, [NativeCall.kunQueryBufferHandle 1 "close"]) :=
  (C3_sentinel_translated (fun _ => USIZE_MAX) (fun _ => Nat.le_refl _)
    (fun _ _ _ => 1) ⟨1⟩ ⟨2⟩ 8 ⟨1, 8, []⟩ ⟨1, 8, []⟩ "close" rfl
    (Reaches.refl _)).1 rfl (by decide) rfl

/-- C1 counterexample: for the NUL-containing name `"a\x00"` and data of
the wrong length, `push_data` fails with `BufferSizeMismatch` (the length
check runs first), not with a name-validation error (`StringConversion` or
`InvalidBufferName`), refuting the claim that every push to a
NUL-containing name fails with the name-validation error. -/
theorem C1_counterexample :
    hasNulByte "a\x00" = true ∧
    (StreamContext.push_data (fun _ => 0) ⟨1, 1, []⟩ "a\x00" []).1 =
      Except.error (KunQuantError.BufferSizeMismatch "a\x00" 1 0) ∧
    (StreamContext.push_data (fun _ => 0) ⟨1, 1, []⟩ "a\x00" []).1 ≠
      Except.error (KunQuantError.StringConversion "a\x00") ∧
    (StreamContext.push_data (fun _ => 0) ⟨1, 1, []⟩ "a\x00" []).1 ≠
      Except.error (KunQuantError.InvalidBufferName "a\x00") := by
  refine ⟨by decide, rfl, ?_, ?_⟩
  · intro h
    exact KunQuantError.noConfusion (Except.error.inj h)
  · intro h
    exact KunQuantError.noConfusion (Except.error.inj h)

/-- C1 (amended): for every buffer name containing an embedded NUL byte,
`set_buffer`/`set_buffer_slice` fail with the embedded-NUL string-conversion
error and issue no native call; `push_data` on a context reachable from
construction issues no native call and fails — with the embedded-NUL error
when `data.len() = num_stocks`, but with `BufferSizeMismatch` (the length
check runs first) when `data.len() ≠ num_stocks`. -/
theorem C1_amended (createStream : Nat → Nat → Nat → Nat) (e : Executor)
    (m : Module) (num : Nat) (c0 ctx : StreamContext) (name : String)
    (data : List F32) (bm : BufferNameMap) (buffer : Nat)
    (query : String → Nat)
    (hnew : (StreamContext.new createStream e m num).1 = Except.ok c0)
    (hreach : Reaches c0 ctx) (hname : hasNulByte name = true) :
    BufferNameMap.set_buffer bm name buffer =
      (Except.error (KunQuantError.StringConversion name), bm, []) ∧
    BufferNameMap.set_buffer_slice bm name buffer =
      (Except.error (KunQuantError.StringConversion name), bm, []) ∧
    (data.length = ctx.num_stocks →
      StreamContext.push_data query ctx name data =
        (Except.error (KunQuantError.StringConversion name), ctx, [])) ∧
    (data.length ≠ ctx.num_stocks →
      StreamContext.push_data query ctx name data =
        (Except.error
            (KunQuantError.BufferSizeMismatch name ctx.num_stocks
              data.length),
          ctx, [])) := by
  have hset : BufferNameMap.set_buffer bm name buffer =
      (Except.error (KunQuantError.StringConversion name), bm, []) := by
    unfold BufferNameMap.set_buffer
    rw [if_pos hname]
  have hcg0 : CacheGood c0 := by
    obtain ⟨-, -, hemp⟩ := new_ok_state createStream e m num c0 hnew
    intro k v hk
    rw [hemp] at hk
    simp [mapLookup] at hk
  have hcg := hreach.cacheGood hcg0
  have hnone : mapLookup ctx.buffer_handles name = none := by
    cases hl : mapLookup ctx.buffer_handles name with
    | none => rfl
    | some v =>
        have hfalse := (hcg name v hl).1
        rw [hfalse] at hname
        exact Bool.noConfusion hname
  refine ⟨hset, hset, ?_, ?_⟩
  · intro hlen
    exact push_data_error query ctx name data
      (KunQuantError.StringConversion name) ctx [] (fun hh => hh hlen)
      (get_buffer_handle_nul query ctx name hnone hname)
  · intro hlen
    unfold StreamContext.push_data
    rw [if_pos hlen]

theorem C1_witness :
    hasNulByte "a\x00" = true ∧
    BufferNameMap.set_buffer ⟨3, []⟩ "a\x00" 5 =
      (Except.error (KunQuantError.StringConversion "a\x00"), ⟨3, []⟩,
        []) ∧
    StreamContext.push_data (fun _ => 0) ⟨1, 2, []⟩ "a\x00" [10, 11] =
      (Except.error (KunQuantError.StringConversion "a\x00"), ⟨1, 2, []⟩,
        []) ∧
    StreamContext.push_data (fun _ => 0) ⟨1, 2, []⟩ "a\x00" [] =
      (Except.error (KunQuantError.BufferSizeMismatch "a\x00" 2 0),
        ⟨1, 2, []⟩, []) :=
  ⟨by decide,
   (C1_amended (fun _ _ _ => 1) ⟨1⟩ ⟨1⟩ 2 ⟨1, 2, []⟩ ⟨1, 2, []⟩ "a\x00"
      [10, 11] ⟨3, []⟩ 5 (fun _ => 0) rfl (Reaches.refl _) (by decide)).1,
   (C1_amended (fun _ _ _ => 1) ⟨1⟩ ⟨1⟩ 2 ⟨1, 2, []⟩ ⟨1, 2, []⟩ "a\x00"
      [10, 11] ⟨3, []⟩ 5 (fun _ => 0) rfl (Reaches.refl _)
      (by decide)).2.2.1 (by decide),
   (C1_amended (fun _ _ _ => 1) ⟨1⟩ ⟨1⟩ 2 ⟨1, 2, []⟩ ⟨1, 2, []⟩ "a\x00" []
      ⟨3, []⟩ 5 (fun _ => 0) rfl (Reaches.refl _) (by decide)).2.2.2
     (by decide)⟩

/-- C10 counterexample: for the NUL-containing name `"\x00"` on an empty
cache, `get_buffer_handle` fails (with the string-conversion error) and the
cache is unchanged, but a subsequent `get_buffer_handle` of the same name
issues no native query at all (its native-call trace is empty): it re-fails
at name validation, refuting the claim that a subsequent call issues a
fresh native query after every failure. -/
theorem C10_counterexample :
    (StreamContext.get_buffer_handle (fun _ => 0) ⟨1, 8, []⟩ "\x00").1 =
      Except.error (KunQuantError.StringConversion "\x00") ∧
    (StreamContext.get_buffer_handle (fun _ => 0) ⟨1, 8, []⟩ "\x00").2.1 =
      ⟨1, 8, []⟩ ∧
    (StreamContext.get_buffer_handle (fun _ => 0)
        (StreamContext.get_buffer_handle (fun _ => 0) ⟨1, 8, []⟩
            "\x00").2.1
        "\x00").2.2 = [] := by
  refine ⟨rfl, by decide, by decide⟩

/-- C10 (amended): a failed `get_buffer_handle(name)` leaves the handle
cache unchanged, so failures are never cached; when the failure was the
native not-found sentinel (a NUL-free name), a subsequent call for the same
name issues a fresh native query; when the failure was name validation (a
NUL name), a subsequent call re-fails at validation with no native
query. -/
theorem C10_amended (query : String → Nat) (ctx : StreamContext)
    (name : String) (err : KunQuantError) (ctx' : StreamContext)
    (tr : List NativeCall)
    (hfail : StreamContext.get_buffer_handle query ctx name =
      (Except.error err, ctx', tr)) :
    ctx' = ctx ∧
    (hasNulByte name = false → ∀ query2 : String → Nat,
      (StreamContext.get_buffer_handle query2 ctx name).2.2 =
        [NativeCall.kunQueryBufferHandle ctx.handle name]) ∧
    (hasNulByte name = true → ∀ query2 : String → Nat,
      StreamContext.get_buffer_handle query2 ctx name =
        (Except.error (KunQuantError.StringConversion name), ctx, [])) := by
  cases hl : mapLookup ctx.buffer_handles name with
  | some h =>
      rw [get_buffer_handle_hit query ctx name h hl] at hfail
      simp at hfail
  | none =>
      by_cases hn : hasNulByte name = true
      · rw [get_buffer_handle_nul query ctx name hl hn] at hfail
        simp only [Prod.mk.injEq] at hfail
        refine ⟨hfail.2.1.symm, ?_, ?_⟩
        · intro hfalse
          rw [hn] at hfalse
          exact Bool.noConfusion hfalse
        · intro _ query2
          exact get_buffer_handle_nul query2 ctx name hl hn
      · have hn' : hasNulByte name = false := by simpa using hn
        by_cases hs : query name = USIZE_MAX
        · rw [get_buffer_handle_sentinel query ctx name hl hn' hs] at hfail
          simp only [Prod.mk.injEq] at hfail
          refine ⟨hfail.2.1.symm, ?_, ?_⟩
          · intro _ query2
            by_cases hs2 : query2 name = USIZE_MAX
            · rw [get_buffer_handle_sentinel query2 ctx name hl hn' hs2]
            · rw [get_buffer_handle_miss query2 ctx name hl hn' hs2]
          · intro htrue
            rw [hn'] at htrue
            exact Bool.noConfusion htrue
        · rw [get_buffer_handle_miss query ctx name hl hn' hs] at hfail
          simp at hfail

theorem C10_witness :
    (⟨1, 8, []⟩ : StreamContext) = ⟨1, 8, []⟩ ∧
    (StreamContext.get_buffer_handle (fun _ => 3) ⟨1, 8, []⟩ "close").2.2 =
      [NativeCall.kunQueryBufferHandle 1 "close"] :=
  ⟨(C10_amended (fun _ => USIZE_MAX) ⟨1, 8, []⟩ "close"
      (KunQuantError.BufferHandleNotFound "close") ⟨1, 8, []⟩
      [NativeCall.kunQueryBufferHandle 1 "close"]
      (get_buffer_handle_sentinel (fun _ => USIZE_MAX) ⟨1, 8, []⟩ "close"
        rfl (by decide) rfl)).1,
   (C10_amended (fun _ => USIZE_MAX) ⟨1, 8, []⟩ "close"
      (KunQuantError.BufferHandleNotFound "close") ⟨1, 8, []⟩
      [NativeCall.kunQueryBufferHandle 1 "close"]
      (get_buffer_handle_sentinel (fun _ => USIZE_MAX) ⟨1, 8, []⟩ "close"
        rfl (by decide) rfl)).2.1 (by decide) (fun _ => 3)⟩

end KunQuant
